import Mathlib

/-!
Shallow embedding of the HLS transcoding session manager of this repository
(`src/backend/src/hls-transcoder.ts`), together with proofs about its
behaviour.  Pure data (config, session records, the used-port set) is
embedded directly; external resources (the ffmpeg child process, UDP
sockets, mediasoup transports) are represented by opaque numeric handles
whose creation outcomes are supplied by an explicit environment record,
and timers are modelled as exact ticks.
-/

/-- Mirrors the `HLSConfig` interface: output directory, segment duration,
playlist length, resolution, video/audio bitrate and the base RTP port. -/
structure HLSConfig where
  outputDir : String
  segmentDuration : Nat
  playlistLength : Nat
  resolution : String
  videoBitrate : String
  audioBitrate : String
  baseRtpPort : Nat
deriving DecidableEq, Repr

/-- Mirrors `DEFAULT_HLS_CONFIG`. -/
def DEFAULT_HLS_CONFIG : HLSConfig :=
  { outputDir := "./hls-output"
    segmentDuration := 4
    playlistLength := 10
    resolution := "1280x720"
    videoBitrate := "2500k"
    audioBitrate := "128k"
    baseRtpPort := 20000 }

/-- A mediasoup producer's media kind (`'video' | 'audio'`). -/
inductive MediaKind
  | video
  | audio
deriving DecidableEq, Repr

/-- A mediasoup producer handle; only the `kind` field is inspected by the
transcoder (`producers.find(p => p.kind === ...)`). -/
structure Producer where
  kind : MediaKind
deriving DecidableEq, Repr

/-- Mirrors the session `stats` record
`{packetsReceived, bytesReceived, lastPacketTime}`. -/
structure Stats where
  packetsReceived : Nat
  bytesReceived : Nat
  lastPacketTime : Nat
deriving DecidableEq, Repr

/-- Mirrors `TranscodingSession`.  The child process and the two UDP sockets
are external resources and are represented by optional numeric handles
(`none` = `null`/absent).  `rtpPorts.video`/`rtpPorts.audio` become
`videoPort`/`audioPort` (the code stores `0` for an absent kind). -/
structure Session where
  id : String
  process : Option Nat
  isActive : Bool
  startTime : Nat
  outputPath : String
  videoPort : Nat
  audioPort : Nat
  videoSocket : Option Nat
  audioSocket : Option Nat
  videoProducer : Option Producer
  audioProducer : Option Producer
  stats : Stats
deriving DecidableEq, Repr

/-- Mirrors `HLSState`: the session map (keyed by `Session.id`) and the
used-port set.  The `Map` is embedded as a list of sessions looked up by id. -/
structure HLSState where
  config : HLSConfig
  sessions : List Session
  usedPorts : Finset Nat
deriving DecidableEq

/-- The state a freshly created transcoder starts from
(`sessions: new Map(), usedPorts: new Set()`). -/
def initialState (config : HLSConfig) : HLSState :=
  { config := config, sessions := [], usedPorts := ∅ }

/-- Models `path.join(a, b)` on the relative segment paths used by the
transcoder: plain concatenation with a `/` separator (the code never relies
on `path.join`'s normalisation for these paths). -/
def pathJoin (a b : String) : String := a ++ "/" ++ b

/-! ## Port allocator (`getAvailablePort`) -/

/-- The `while (state.usedPorts.has(port)) port += 2` search of
`getAvailablePort`, embedded with explicit fuel.  The fuel used by
`findFreePort` is provably sufficient (`findFreePortAux_spec`), so the
fuel-exhaustion fallback is never taken. -/
def findFreePortAux (used : Finset Nat) : Nat → Nat → Nat
  | port, 0 => port
  | port, fuel + 1 =>
    if port ∈ used then findFreePortAux used (port + 2) fuel else port

/-- The port returned by the search loop of `getAvailablePort`, starting at
`base` (the code always starts at `state.config.baseRtpPort`). -/
def findFreePort (used : Finset Nat) (base : Nat) : Nat :=
  findFreePortAux used base (used.card + 1)

/-- Mirrors `getAvailablePort`: find the first free port stepping by 2 from
the configured base, then reserve both the RTP port and the RTCP port
(`port` and `port + 1`). -/
def getAvailablePort (st : HLSState) : Nat × HLSState :=
  let port := findFreePort st.usedPorts st.config.baseRtpPort
  (port, { st with usedPorts := insert (port + 1) (insert port st.usedPorts) })

/-! ## RTP ingest handlers (`setupRtpReceiversWithForwarding`,
`attemptSocketRecovery`) -/

/-- The `'message'` handler installed by `setupRtpReceiversWithForwarding`
(identical for the video and the audio socket): bump the stats, then, if the
process is present and its stdin is writable (`session.process &&
session.process.stdin && !session.process.stdin.destroyed`), forward the
raw packet to stdin.  The returned list is the sequence of buffers written
to ffmpeg's stdin by this invocation. -/
def onRtpMessage (s : Session) (rtpPacket : List Nat) (now : Nat)
    (stdinWritable : Bool) : Session × List (List Nat) :=
  let s' := { s with stats :=
    { packetsReceived := s.stats.packetsReceived + 1
      bytesReceived := s.stats.bytesReceived + rtpPacket.length
      lastPacketTime := now } }
  if s'.process.isSome && stdinWritable then (s', [rtpPacket]) else (s', [])

/-- The `'message'` handler installed on the replacement socket by
`attemptSocketRecovery`: it only forwards the raw packet to stdin (when
writable); it does not touch the stats record. -/
def recoveryOnMessage (s : Session) (rtpPacket : List Nat)
    (stdinWritable : Bool) : Session × List (List Nat) :=
  if s.process.isSome && stdinWritable then (s, [rtpPacket]) else (s, [])

/-- The socket replacement performed inside `attemptSocketRecovery` once the
new socket is bound: the old socket handle is discarded and the new handle
installed. -/
def replaceSocket (s : Session) (kind : MediaKind) (handle : Nat) : Session :=
  match kind with
  | MediaKind.video => { s with videoSocket := some handle }
  | MediaKind.audio => { s with audioSocket := some handle }

/-! ## Process supervision (`startFFmpegProcess` exit handler, stderr) -/

/-- The `'exit'` handler registered in `startFFmpegProcess`.  It first sets
`session.isActive = false`, then tests
`code !== 0 && signal !== 'SIGTERM' && signal !== 'SIGKILL' &&
session.isActive` to decide whether to schedule the 5-second delayed
restart.  The returned `Bool` is whether a restart was scheduled. -/
def onProcessExit (s : Session) (code : Option Int) (signal : Option String) :
    Session × Bool :=
  let s' := { s with isActive := false }
  if code ≠ some 0 ∧ signal ≠ some "SIGTERM" ∧ signal ≠ some "SIGKILL" ∧
      s'.isActive = true then
    (s', true)
  else
    (s', false)

/-- The body of the scheduled restart callback when it succeeds: a new
process handle is installed, the session is marked active again (ingest
forwarding is then re-established for the new handle).  In the code this is
only ever reached if `onProcessExit` schedules it. -/
def onRestartComplete (s : Session) (newHandle : Nat) : Session :=
  { s with process := some newHandle, isActive := true }

/-- The stderr `'data'` handler of `startFFmpegProcess`.  Error lines and
info lines are only logged; a progress line (`frame=`) additionally stamps
`stats.lastPacketTime` when the last stamp is absent or older than 5 s.
Whether the line matches each filter is passed in as the result of the
`includes` tests. -/
def onStderrData (s : Session) (isErrorLine isProgressLine : Bool)
    (now : Nat) : Session :=
  if isErrorLine then s
  else if isProgressLine then
    if s.stats.lastPacketTime = 0 ∨ now - s.stats.lastPacketTime > 5000 then
      { s with stats := { s.stats with lastPacketTime := now } }
    else s
  else s

/-! ## Stream synchronizer (`waitForRtpFlow`) -/

/-- Result of the `waitForRtpFlow` promise.  `rejected` mirrors the unused
`reject` continuation of the promise executor. -/
inductive FlowResult
  | flowDetected (packets elapsed : Nat)
  | timeoutWarn (packets elapsed : Nat)
  | rejected
deriving DecidableEq, Repr

/-- The 100 ms polling interval of `waitForRtpFlow`, modelled as exact ticks:
at tick `k` the elapsed time is `100 * k` and the session's cumulative packet
counter is `pkts k`.  If more than 10 packets arrived since the check began
the promise resolves with the flow detected; otherwise, once the elapsed
time exceeds the timeout it resolves with only a warning.  The fuel is
provably sufficient (`waitLoop_ne_rejected`). -/
def waitLoop (pkts : Nat → Nat) (initial timeoutMs : Nat) :
    Nat → Nat → FlowResult
  | _, 0 => FlowResult.rejected
  | k, fuel + 1 =>
    let elapsed := 100 * k
    let delta := pkts k - initial
    if delta > 10 then FlowResult.flowDetected delta elapsed
    else if elapsed > timeoutMs then FlowResult.timeoutWarn delta elapsed
    else waitLoop pkts initial timeoutMs (k + 1) fuel

/-- Mirrors `waitForRtpFlow(session, timeoutMs)`: record the initial packet
count (`pkts 0`), then poll every 100 ms. -/
def waitForRtpFlow (pkts : Nat → Nat) (timeoutMs : Nat) : FlowResult :=
  waitLoop pkts (pkts 0) timeoutMs 1 (timeoutMs / 100 + 2)

/-! ## Stopping a session (`stopTranscoding`) -/

/-- External outcomes consumed by `stopTranscoding`: whether the child
process exits within the 5-second grace period after `SIGTERM` (if not, it
is force-killed with `SIGKILL`). -/
structure StopEnv where
  exitsWithinGrace : Bool
deriving DecidableEq, Repr

/-- The four `state.usedPorts.delete(...)` calls of `stopTranscoding`:
release both ports of the video pair and both ports of the audio pair. -/
def releasePorts (used : Finset Nat) (s : Session) : Finset Nat :=
  (((used.erase s.videoPort).erase (s.videoPort + 1)).erase
      s.audioPort).erase (s.audioPort + 1)

/-- Mirrors `stopTranscoding(sessionId)`.  Unknown id: warn and return with
the state untouched.  Otherwise: mark inactive, close consumers, transports
and sockets (external effects on handles of the removed session), release
the RTP/RTCP ports, terminate the process - `SIGTERM`, then `SIGKILL` after
the 5 s grace period if it has not exited - and delete the session.  The
returned `Bool` records whether the process had to be force-killed. -/
def stopTranscoding (st : HLSState) (env : StopEnv) (sessionId : String) :
    HLSState × Bool :=
  match st.sessions.find? (fun s => s.id == sessionId) with
  | none => (st, false)
  | some session =>
    let forceKilled := session.process.isSome && !env.exitsWithinGrace
    ({ st with
        usedPorts := releasePorts st.usedPorts session
        sessions := st.sessions.filter (fun s => !(s.id == sessionId)) },
      forceKilled)

/-! ## Starting a session (`startTranscoding`) -/

/-- Errors surfaced by `startTranscoding` (each is a distinct thrown
`Error` in the code). -/
inductive StartError
  | duplicateSession
  | noValidProducers
  | spawnError
  | connectError
deriving DecidableEq, Repr

/-- External outcomes consumed by `startTranscoding`: whether the ffmpeg
spawn succeeds, whether connecting the producers via mediasoup succeeds,
the handles handed out for the new process and sockets, the wall clock, and
the stop environment used by the failure rollback. -/
structure StartEnv where
  spawnOk : Bool
  connectOk : Bool
  procHandle : Nat
  videoSocketHandle : Nat
  audioSocketHandle : Nat
  now : Nat
  stopEnv : StopEnv
deriving DecidableEq, Repr

/-- Mirrors `setupRtpReceiversWithForwarding`'s socket creation: a socket is
bound for a kind exactly when its producer is present, its port is non-zero
(truthiness of `rtpPorts.video`) and the process handle is present. -/
def setupSockets (env : StartEnv) (s : Session) : Session :=
  { s with
    videoSocket :=
      if s.videoProducer.isSome && !(s.videoPort == 0) && s.process.isSome
      then some env.videoSocketHandle else s.videoSocket
    audioSocket :=
      if s.audioProducer.isSome && !(s.audioPort == 0) && s.process.isSome
      then some env.audioSocketHandle else s.audioSocket }

/-- In-place mutation of the session object held by the map
(`session.process = ...` etc. on the object stored via
`state.sessions.set`). -/
def updateSession (st : HLSState) (sessionId : String)
    (f : Session → Session) : HLSState :=
  { st with sessions :=
      st.sessions.map (fun s => if s.id == sessionId then f s else s) }

/-- The body of `startTranscoding` once the duplicate-id and no-producer
checks have passed, with the producers already split by kind: allocate an
RTP port pair per present kind, register the session, spawn ffmpeg, bind
the ingest sockets, connect the producers, run the synchronizer (which
never rejects) and return the playlist path; on a spawn or connect failure
run the `stopTranscoding` cleanup of the catch block and re-throw. -/
def startCore (st : HLSState) (env : StartEnv) (sessionId : String)
    (videoProducer audioProducer : Option Producer) :
    Except StartError String × HLSState :=
  let pv := if videoProducer.isSome then getAvailablePort st else (0, st)
  let pa := if audioProducer.isSome then getAvailablePort pv.2 else (0, pv.2)
  let outputPath := pathJoin st.config.outputDir sessionId
  let playlistPath := pathJoin outputPath "playlist.m3u8"
  let session : Session :=
    { id := sessionId
      process := none
      isActive := true
      startTime := env.now
      outputPath := outputPath
      videoPort := pv.1
      audioPort := pa.1
      videoSocket := none
      audioSocket := none
      videoProducer := videoProducer
      audioProducer := audioProducer
      stats := { packetsReceived := 0, bytesReceived := 0,
                 lastPacketTime := 0 } }
  let st3 : HLSState := { pa.2 with sessions := session :: pa.2.sessions }
  if env.spawnOk = false then
    (Except.error StartError.spawnError,
      (stopTranscoding st3 env.stopEnv sessionId).1)
  else
    let st4 := updateSession st3 sessionId
      (fun s => setupSockets env { s with process := some env.procHandle })
    if env.connectOk = false then
      (Except.error StartError.connectError,
        (stopTranscoding st4 env.stopEnv sessionId).1)
    else
      (Except.ok playlistPath, st4)

/-- Mirrors `startTranscoding(sessionId, producers)`.  Steps, in source
order: duplicate-id check; split producers by kind; reject when neither
kind is present; then the main body (`startCore`).  Any thrown error is
caught, `stopTranscoding(sessionId)` is run as cleanup, and the error is
re-thrown. -/
def startTranscoding (st : HLSState) (env : StartEnv) (sessionId : String)
    (producers : List Producer) : Except StartError String × HLSState :=
  if (st.sessions.find? (fun s => s.id == sessionId)).isSome then
    (Except.error StartError.duplicateSession,
      (stopTranscoding st env.stopEnv sessionId).1)
  else
    let videoProducer := producers.find? (fun p => p.kind == MediaKind.video)
    let audioProducer := producers.find? (fun p => p.kind == MediaKind.audio)
    if videoProducer.isNone && audioProducer.isNone then
      (Except.error StartError.noValidProducers,
        (stopTranscoding st env.stopEnv sessionId).1)
    else
      startCore st env sessionId videoProducer audioProducer

/-! ## Adaptive bitrate orchestrator (`startAdaptiveTranscoding`,
`createMasterPlaylist`) -/

/-- A quality tier `{name, resolution, bitrate}`. -/
structure Quality where
  name : String
  resolution : String
  bitrate : String
deriving DecidableEq, Repr

/-- The built-in tier list of `startAdaptiveTranscoding`. -/
def qualities : List Quality :=
  [{ name := "720p", resolution := "1280x720", bitrate := "2500k" },
   { name := "480p", resolution := "854x480", bitrate := "1200k" },
   { name := "360p", resolution := "640x360", bitrate := "800k" }]

/-- The per-tier configuration built inside the loop of
`startAdaptiveTranscoding`: tier resolution and video bitrate, and a base
RTP port offset of `qualities.indexOf(quality) * 100`. -/
def tierConfig (config : HLSConfig) (q : Quality) : HLSConfig :=
  { config with
    resolution := q.resolution
    videoBitrate := q.bitrate
    baseRtpPort := config.baseRtpPort + (qualities.indexOf q) * 100 }

/-- Parse a leading run of decimal digits, like `parseInt` (`Number` agrees
with it on the all-digit strings appearing here). -/
def parseLeadingNat : List Char → Nat → Nat
  | [], acc => acc
  | c :: cs, acc =>
    if c.isDigit then parseLeadingNat cs (acc * 10 + (c.toNat - 48)) else acc

/-- Models `parseInt(quality.bitrate.replace('k', ''))` for the bitrate
strings used here (digits followed by `k`): parse the leading digit run. -/
def parseBitrateKbps (bitrate : String) : Nat :=
  parseLeadingNat bitrate.data 0

/-- Split a character list on a separator character (the `split('x')` of
`createMasterPlaylist`). -/
def splitOnChar (sep : Char) : List Char → List (List Char)
  | [] => [[]]
  | c :: cs =>
    match splitOnChar sep cs with
    | [] => [[]]
    | g :: gs => if c = sep then [] :: g :: gs else (c :: g) :: gs

/-- Models
`const [width, height] = quality.resolution.split('x').map(Number)`. -/
def resolutionWH (resolution : String) : Nat × Nat :=
  match splitOnChar 'x' resolution.data with
  | w :: h :: _ => (parseLeadingNat w 0, parseLeadingNat h 0)
  | _ => (0, 0)

/-- One `#EXT-X-STREAM-INF` entry of the master playlist, structured. -/
structure StreamInf where
  bandwidth : Nat
  resolution : String
  name : String
  uri : String
deriving DecidableEq, Repr

/-- The entry `createMasterPlaylist` emits for one tier: bandwidth is the
bitrate in kbps times 1000, the resolution is re-rendered as
`width x height`, and the following line is the relative manifest URL
`name/playlist.m3u8`. -/
def streamInfFor (q : Quality) : StreamInf :=
  { bandwidth := parseBitrateKbps q.bitrate * 1000
    resolution :=
      toString (resolutionWH q.resolution).1 ++ "x" ++
        toString (resolutionWH q.resolution).2
    name := q.name
    uri := q.name ++ "/playlist.m3u8" }

/-- The text of one tier's two lines in the master playlist. -/
def streamInfText (q : Quality) : String :=
  "#EXT-X-STREAM-INF:BANDWIDTH=" ++ toString (streamInfFor q).bandwidth ++
    ",RESOLUTION=" ++ (streamInfFor q).resolution ++
    ",NAME=\"" ++ q.name ++ "\"\n" ++ q.name ++ "/playlist.m3u8\n\n"

/-- Mirrors `createMasterPlaylist(sessionId, qualities, playlistUrls)`:
the master manifest path, its structured entries, and its full text
(`#EXTM3U` header followed by one stream-info entry per tier). -/
def createMasterPlaylist (config : HLSConfig) (sessionId : String)
    (qs : List Quality) : String × List StreamInf × String :=
  (pathJoin (pathJoin config.outputDir sessionId) "master.m3u8",
   qs.map streamInfFor,
   "#EXTM3U\n#EXT-X-VERSION:3\n\n" ++ String.join (qs.map streamInfText))

/-- The tier loop of `startAdaptiveTranscoding`: for each quality, create a
separate transcoder with the tier configuration, start a session named
`sessionId_tierName` on it, and collect the playlist URL together with that
transcoder's final state.  A tier failure aborts the loop and re-throws. -/
def runTiers (config : HLSConfig) (env : StartEnv) (sessionId : String)
    (producers : List Producer) :
    List Quality → Except StartError (List (String × HLSState))
  | [] => Except.ok []
  | q :: rest =>
    let qid := sessionId ++ "_" ++ q.name
    let r := startTranscoding (initialState (tierConfig config q)) env qid
      producers
    match r.1 with
    | Except.error e => Except.error e
    | Except.ok url =>
      match runTiers config env sessionId producers rest with
      | Except.error e => Except.error e
      | Except.ok results => Except.ok ((url, r.2) :: results)

/-- Mirrors `startAdaptiveTranscoding(sessionId, producers)`: run the three
built-in tiers, then write the master playlist.  Returns the tier playlist
URLs (the value returned to the caller) together with each tier
transcoder's final state and the master playlist data. -/
def startAdaptiveTranscoding (config : HLSConfig) (env : StartEnv)
    (sessionId : String) (producers : List Producer) :
    Except StartError
      (List (String × HLSState) × (String × List StreamInf × String)) :=
  match runTiers config env sessionId producers qualities with
  | Except.error e => Except.error e
  | Except.ok results =>
    Except.ok (results, createMasterPlaylist config sessionId qualities)

/-! ## Port-pair ownership invariant -/

/-- The ports a session actually holds: the RTP/RTCP pair of each present
media kind. -/
def Session.portSet (s : Session) : Finset Nat :=
  (if s.videoProducer.isSome then {s.videoPort, s.videoPort + 1} else ∅) ∪
    (if s.audioProducer.isSome then {s.audioPort, s.audioPort + 1} else ∅)

/-- Well-formedness of a session's port fields relative to the configured
base port: a present kind's port is at or above the base and has the base's
parity; an absent kind's port field is the `0` marker. -/
def SessionPortsOk (base : Nat) (s : Session) : Prop :=
  (s.videoProducer.isSome = true →
    base ≤ s.videoPort ∧ s.videoPort % 2 = base % 2) ∧
  (s.videoProducer.isSome = false → s.videoPort = 0) ∧
  (s.audioProducer.isSome = true →
    base ≤ s.audioPort ∧ s.audioPort % 2 = base % 2) ∧
  (s.audioProducer.isSome = false → s.audioPort = 0)

/-- The transcoder-state invariant: the base port is at least 2 (so the `0`
marker never collides with a real port), every tracked session's ports are
recorded in the used-port set and well-formed, and the port sets of any two
distinct tracked sessions are disjoint. -/
structure TranscoderInv (st : HLSState) : Prop where
  base2 : 2 ≤ st.config.baseRtpPort
  subset : ∀ s ∈ st.sessions, s.portSet ⊆ st.usedPorts
  portsOk : ∀ s ∈ st.sessions, SessionPortsOk st.config.baseRtpPort s
  disj : ∀ s1 ∈ st.sessions, ∀ s2 ∈ st.sessions, s1.id ≠ s2.id →
    Disjoint s1.portSet s2.portSet

/-- The states reachable from a fresh transcoder by any interleaving of
`startTranscoding` (with any producers and external outcomes, successful or
failed) and `stopTranscoding` calls. -/
inductive Reachable (config : HLSConfig) : HLSState → Prop
  | init : Reachable config (initialState config)
  | start (st : HLSState) (env : StartEnv) (id : String)
      (producers : List Producer) : Reachable config st →
      Reachable config (startTranscoding st env id producers).2
  | stop (st : HLSState) (env : StopEnv) (id : String) :
      Reachable config st →
      Reachable config (stopTranscoding st env id).1

/-! ## Per-session operations, for the stats-monotonicity invariant -/

/-- Every operation of the transcoder that mutates (or reads) a tracked
session object: packet handling on original and replacement sockets,
socket replacement, process exit and restart, stderr logging, and the
`isActive = false` marking done by `stopTranscoding` before removal.
Read-only operations (`getSessionInfo`, `monitorRtpFlow`,
`monitorStreamQuality`, `healthCheck`) leave the session unchanged and are
covered by `unchanged`. -/
inductive SessionStep : Session → Session → Prop
  | rtpMessage (s : Session) (pkt : List Nat) (now : Nat) (w : Bool) :
      SessionStep s (onRtpMessage s pkt now w).1
  | recoveryMessage (s : Session) (pkt : List Nat) (w : Bool) :
      SessionStep s (recoveryOnMessage s pkt w).1
  | socketReplaced (s : Session) (kind : MediaKind) (handle : Nat) :
      SessionStep s (replaceSocket s kind handle)
  | processExit (s : Session) (code : Option Int) (signal : Option String) :
      SessionStep s (onProcessExit s code signal).1
  | restartComplete (s : Session) (handle : Nat) :
      SessionStep s (onRestartComplete s handle)
  | stderrData (s : Session) (isErrorLine isProgressLine : Bool) (now : Nat) :
      SessionStep s (onStderrData s isErrorLine isProgressLine now)
  | stopMark (s : Session) : SessionStep s { s with isActive := false }
  | unchanged (s : Session) : SessionStep s s

/-! ## Concrete data used by witnesses and counterexamples -/

/-- A producer list with both media kinds present. -/
def bothProducers : List Producer :=
  [{ kind := MediaKind.video }, { kind := MediaKind.audio }]

/-- An environment in which every external operation succeeds. -/
def demoEnvOk : StartEnv :=
  { spawnOk := true, connectOk := true, procHandle := 7,
    videoSocketHandle := 1, audioSocketHandle := 2, now := 0,
    stopEnv := { exitsWithinGrace := true } }

/-- State after starting session `"s1"` (both kinds) on a fresh default
transcoder. -/
def demoState1 : HLSState :=
  (startTranscoding (initialState DEFAULT_HLS_CONFIG) demoEnvOk "s1"
    bothProducers).2

/-- State after additionally starting session `"s2"` (both kinds). -/
def demoState2 : HLSState :=
  (startTranscoding demoState1 demoEnvOk "s2" bothProducers).2

/-- The session record tracked for `"s1"` in `demoState1`/`demoState2`. -/
def demoSessionS1 : Session :=
  { id := "s1", process := some 7, isActive := true, startTime := 0,
    outputPath := "./hls-output/s1", videoPort := 20000, audioPort := 20002,
    videoSocket := some 1, audioSocket := some 2,
    videoProducer := some { kind := MediaKind.video },
    audioProducer := some { kind := MediaKind.audio },
    stats := { packetsReceived := 0, bytesReceived := 0, lastPacketTime := 0 } }

/-- The session record tracked for `"s2"` in `demoState2`. -/
def demoSessionS2 : Session :=
  { id := "s2", process := some 7, isActive := true, startTime := 0,
    outputPath := "./hls-output/s2", videoPort := 20004, audioPort := 20006,
    videoSocket := some 1, audioSocket := some 2,
    videoProducer := some { kind := MediaKind.video },
    audioProducer := some { kind := MediaKind.audio },
    stats := { packetsReceived := 0, bytesReceived := 0, lastPacketTime := 0 } }

/-- A packet trace on which exactly 10 packets arrive by the first poll and
no more afterwards. -/
def demoTraceTen : Nat → Nat := fun k => if k = 0 then 0 else 10

/-- A packet trace on which 20 packets arrive by the first poll. -/
def demoTraceTwenty : Nat → Nat := fun k => if k = 0 then 0 else 20

deriving instance DecidableEq for Except

/-! # Theorems -/

/-! ## Port allocator lemmas -/

theorem findFreePortAux_spec (used : Finset Nat) :
    ∀ fuel port : Nat,
      (used.filter (fun p => port ≤ p ∧ (p - port) % 2 = 0)).card < fuel →
      findFreePortAux used port fuel ∉ used ∧
        port ≤ findFreePortAux used port fuel ∧
        (findFreePortAux used port fuel - port) % 2 = 0 ∧
        ∀ q, port ≤ q → (q - port) % 2 = 0 → q ∉ used →
          findFreePortAux used port fuel ≤ q := by
  intro fuel
  induction fuel with
  | zero => intro port h; omega
  | succ f ih =>
    intro port h
    by_cases hp : port ∈ used
    · have hsub : used.filter (fun p => port + 2 ≤ p ∧ (p - (port + 2)) % 2 = 0)
          ⊆ (used.filter (fun p => port ≤ p ∧ (p - port) % 2 = 0)).erase port := by
        intro x hx
        rw [Finset.mem_filter] at hx
        rw [Finset.mem_erase, Finset.mem_filter]
        exact ⟨by omega, hx.1, by omega, by omega⟩
      have hmem : port ∈ used.filter (fun p => port ≤ p ∧ (p - port) % 2 = 0) := by
        rw [Finset.mem_filter]; exact ⟨hp, le_refl _, by omega⟩
      have hcard :
          (used.filter (fun p => port + 2 ≤ p ∧ (p - (port + 2)) % 2 = 0)).card < f := by
        have h1 := Finset.card_le_card hsub
        have h2 := Finset.card_erase_of_mem hmem
        have h3 : 0 < (used.filter (fun p => port ≤ p ∧ (p - port) % 2 = 0)).card :=
          Finset.card_pos.mpr ⟨port, hmem⟩
        omega
      have hrec := ih (port + 2) hcard
      have hstep : findFreePortAux used port (f + 1)
          = findFreePortAux used (port + 2) f := by
        simp [findFreePortAux, hp]
      rw [hstep]
      refine ⟨hrec.1, by omega, by omega, ?_⟩
      intro q hq hqpar hqused
      have hqne : q ≠ port := fun he => hqused (he ▸ hp)
      have hq2 : port + 2 ≤ q := by omega
      exact hrec.2.2.2 q hq2 (by omega) hqused
    · have hstep : findFreePortAux used port (f + 1) = port := by
        simp [findFreePortAux, hp]
      rw [hstep]
      exact ⟨hp, le_refl _, by omega, fun q hq _ _ => hq⟩

theorem findFreePort_spec (used : Finset Nat) (base : Nat) :
    findFreePort used base ∉ used ∧ base ≤ findFreePort used base ∧
      (findFreePort used base - base) % 2 = 0 ∧
      ∀ q, base ≤ q → (q - base) % 2 = 0 → q ∉ used →
        findFreePort used base ≤ q := by
  apply findFreePortAux_spec
  exact Nat.lt_succ_of_le (Finset.card_le_card (Finset.filter_subset _ _))

theorem getAvailablePort_spec (st : HLSState) :
    (getAvailablePort st).1 ∉ st.usedPorts ∧
      st.config.baseRtpPort ≤ (getAvailablePort st).1 ∧
      (getAvailablePort st).1 % 2 = st.config.baseRtpPort % 2 ∧
      (getAvailablePort st).2.usedPorts
        = insert ((getAvailablePort st).1 + 1)
            (insert (getAvailablePort st).1 st.usedPorts) ∧
      (getAvailablePort st).2.sessions = st.sessions ∧
      (getAvailablePort st).2.config = st.config := by
  obtain ⟨h1, h2, h3, _⟩ := findFreePort_spec st.usedPorts st.config.baseRtpPort
  refine ⟨h1, h2, ?_, rfl, rfl, rfl⟩
  show findFreePort st.usedPorts st.config.baseRtpPort % 2 = _
  omega

/-! ## Port-set lemmas -/

theorem mem_portSet {s : Session} {x : Nat} :
    x ∈ s.portSet ↔
      (s.videoProducer.isSome = true ∧ (x = s.videoPort ∨ x = s.videoPort + 1)) ∨
        (s.audioProducer.isSome = true ∧ (x = s.audioPort ∨ x = s.audioPort + 1)) := by
  unfold Session.portSet
  cases hv : s.videoProducer.isSome <;> cases ha : s.audioProducer.isSome <;>
    simp [hv, ha] <;> tauto

theorem portSet_congr {s t : Session} (h1 : t.videoPort = s.videoPort)
    (h2 : t.audioPort = s.audioPort) (h3 : t.videoProducer = s.videoProducer)
    (h4 : t.audioProducer = s.audioProducer) : t.portSet = s.portSet := by
  unfold Session.portSet
  rw [h1, h2, h3, h4]

theorem sessionPortsOk_congr {base : Nat} {s t : Session}
    (h1 : t.videoPort = s.videoPort) (h2 : t.audioPort = s.audioPort)
    (h3 : t.videoProducer = s.videoProducer)
    (h4 : t.audioProducer = s.audioProducer)
    (h : SessionPortsOk base s) : SessionPortsOk base t := by
  unfold SessionPortsOk at h ⊢
  rw [h1, h2, h3, h4]
  exact h

theorem portSet_ge {base : Nat} {s : Session} (hok : SessionPortsOk base s) :
    ∀ x ∈ s.portSet, base ≤ x := by
  intro x hx
  rcases mem_portSet.mp hx with ⟨hv, hx'⟩ | ⟨ha, hx'⟩
  · have := hok.1 hv
    omega
  · have := hok.2.2.1 ha
    omega

theorem fresh_pair_not_mem {base p : Nat} {s : Session} {U : Finset Nat}
    (hsub : s.portSet ⊆ U) (hok : SessionPortsOk base s)
    (hp : p ∉ U) (hpar : p % 2 = base % 2) :
    ∀ x ∈ s.portSet, x ≠ p ∧ x ≠ p + 1 := by
  intro x hx
  have hxU : x ∈ U := hsub hx
  refine ⟨fun he => hp (he ▸ hxU), ?_⟩
  rcases mem_portSet.mp hx with ⟨hv, hx'⟩ | ⟨ha, hx'⟩
  · have hmod := (hok.1 hv).2
    have hvU : s.videoPort ∈ U :=
      hsub (mem_portSet.mpr (Or.inl ⟨hv, Or.inl rfl⟩))
    rcases hx' with he | he
    · omega
    · intro hcontra
      have : s.videoPort = p := by omega
      exact hp (this ▸ hvU)
  · have hmod := (hok.2.2.1 ha).2
    have haU : s.audioPort ∈ U :=
      hsub (mem_portSet.mpr (Or.inr ⟨ha, Or.inl rfl⟩))
    rcases hx' with he | he
    · omega
    · intro hcontra
      have : s.audioPort = p := by omega
      exact hp (this ▸ haU)

theorem mem_releasePorts {used : Finset Nat} {sess : Session} {x : Nat} :
    x ∈ releasePorts used sess ↔
      x ∈ used ∧ x ≠ sess.videoPort ∧ x ≠ sess.videoPort + 1 ∧
        x ≠ sess.audioPort ∧ x ≠ sess.audioPort + 1 := by
  unfold releasePorts
  simp [Finset.mem_erase]
  tauto

/-! ## Invariant preservation -/

theorem inv_cons_core {st : HLSState} (sess : Session) (U : Finset Nat)
    (h : TranscoderInv st)
    (hU : st.usedPorts ⊆ U)
    (hsub : sess.portSet ⊆ U)
    (hok : SessionPortsOk st.config.baseRtpPort sess)
    (hdisjold : ∀ s ∈ st.sessions, Disjoint sess.portSet s.portSet) :
    TranscoderInv
      { config := st.config
        sessions := sess :: st.sessions
        usedPorts := U } := by
  constructor
  · exact h.base2
  · intro s hs
    rcases List.mem_cons.mp hs with he | hs
    · exact he ▸ hsub
    · exact fun x hx => hU (h.subset s hs hx)
  · intro s hs
    rcases List.mem_cons.mp hs with he | hs
    · exact he ▸ hok
    · exact h.portsOk s hs
  · intro s1 h1 s2 h2 hne
    rcases List.mem_cons.mp h1 with he1 | h1 <;>
      rcases List.mem_cons.mp h2 with he2 | h2
    · exact absurd (he1 ▸ he2 ▸ rfl) hne
    · exact he1 ▸ hdisjold s2 h2
    · exact he2 ▸ (hdisjold s1 h1).symm
    · exact h.disj s1 h1 s2 h2 hne

theorem inv_stop (st : HLSState) (env : StopEnv) (id : String)
    (h : TranscoderInv st) : TranscoderInv (stopTranscoding st env id).1 := by
  unfold stopTranscoding
  cases hfind : st.sessions.find? (fun s => s.id == id) with
  | none => exact h
  | some sess =>
    have hmem : sess ∈ st.sessions := List.mem_of_find?_eq_some hfind
    have hid : sess.id = id := by
      have := List.find?_some hfind
      simpa using this
    constructor
    · exact h.base2
    · intro s hs x hx
      rw [List.mem_filter] at hs
      obtain ⟨hs, hne⟩ := hs
      have hsid : s.id ≠ id := by simpa using hne
      have hxU : x ∈ st.usedPorts := h.subset s hs hx
      have hdisj := h.disj s hs sess hmem (fun he => hsid (he ▸ hid))
      have hokS := h.portsOk s hs
      have hokSess := h.portsOk sess hmem
      have hxnotin : x ∉ sess.portSet := Finset.disjoint_left.mp hdisj hx
      have hge : st.config.baseRtpPort ≤ x := portSet_ge hokS x hx
      have hb2 := h.base2
      rw [mem_releasePorts]
      refine ⟨hxU, ?_, ?_, ?_, ?_⟩
      · by_cases hv : sess.videoProducer.isSome
        · exact fun he => hxnotin (mem_portSet.mpr (Or.inl ⟨hv, Or.inl he⟩))
        · have h0 := hokSess.2.1 (by simpa using hv)
          omega
      · by_cases hv : sess.videoProducer.isSome
        · exact fun he => hxnotin (mem_portSet.mpr (Or.inl ⟨hv, Or.inr he⟩))
        · have h0 := hokSess.2.1 (by simpa using hv)
          omega
      · by_cases ha : sess.audioProducer.isSome
        · exact fun he => hxnotin (mem_portSet.mpr (Or.inr ⟨ha, Or.inl he⟩))
        · have h0 := hokSess.2.2.2 (by simpa using ha)
          omega
      · by_cases ha : sess.audioProducer.isSome
        · exact fun he => hxnotin (mem_portSet.mpr (Or.inr ⟨ha, Or.inr he⟩))
        · have h0 := hokSess.2.2.2 (by simpa using ha)
          omega
    · intro s hs
      rw [List.mem_filter] at hs
      exact h.portsOk s hs.1
    · intro s1 h1 s2 h2 hne
      rw [List.mem_filter] at h1 h2
      exact h.disj s1 h1.1 s2 h2.1 hne

theorem inv_updateSession (st : HLSState) (id : String) (f : Session → Session)
    (hf : ∀ s : Session, (f s).id = s.id ∧ (f s).videoPort = s.videoPort ∧
      (f s).audioPort = s.audioPort ∧ (f s).videoProducer = s.videoProducer ∧
      (f s).audioProducer = s.audioProducer)
    (h : TranscoderInv st) : TranscoderInv (updateSession st id f) := by
  have hg : ∀ s : Session,
      (if s.id == id then f s else s).portSet = s.portSet ∧
      (if s.id == id then f s else s).id = s.id ∧
      ∀ base, SessionPortsOk base s →
        SessionPortsOk base (if s.id == id then f s else s) := by
    intro s
    by_cases hs : s.id == id
    · obtain ⟨h1, h2, h3, h4, h5⟩ := hf s
      simp only [hs, if_true]
      exact ⟨portSet_congr h2 h3 h4 h5, h1,
        fun base hok => sessionPortsOk_congr h2 h3 h4 h5 hok⟩
    · simp only [hs, if_false]
      exact ⟨rfl, rfl, fun base hok => hok⟩
  constructor
  · exact h.base2
  · intro s' hs'
    simp only [updateSession, List.mem_map] at hs'
    obtain ⟨s, hs, he⟩ := hs'
    rw [← he, (hg s).1]
    exact h.subset s hs
  · intro s' hs'
    simp only [updateSession, List.mem_map] at hs'
    obtain ⟨s, hs, he⟩ := hs'
    rw [← he]
    exact (hg s).2.2 _ (h.portsOk s hs)
  · intro s1' h1' s2' h2' hne
    simp only [updateSession, List.mem_map] at h1' h2'
    obtain ⟨s1, h1, he1⟩ := h1'
    obtain ⟨s2, h2, he2⟩ := h2'
    rw [← he1, ← he2, (hg s1).1, (hg s2).1]
    apply h.disj s1 h1 s2 h2
    intro hcontra
    apply hne
    rw [← he1, ← he2, (hg s1).2.1, (hg s2).2.1]
    exact hcontra

theorem inv_startCore (st : HLSState) (env : StartEnv) (id : String)
    (vopt aopt : Option Producer) (h : TranscoderInv st) :
    TranscoderInv (startCore st env id vopt aopt).2 := by
  have hconf1 : (getAvailablePort st).2.config = st.config := rfl
  have hA := getAvailablePort_spec st
  have hB := getAvailablePort_spec (getAvailablePort st).2
  cases vopt with
  | some pvP =>
    cases aopt with
    | some paP =>
      simp only [startCore, Option.isSome_some, if_true]
      have hst3 : TranscoderInv
          { config := st.config
            sessions :=
              { id := id, process := none, isActive := true,
                startTime := env.now,
                outputPath := pathJoin st.config.outputDir id,
                videoPort := (getAvailablePort st).1,
                audioPort := (getAvailablePort (getAvailablePort st).2).1,
                videoSocket := none, audioSocket := none,
                videoProducer := some pvP, audioProducer := some paP,
                stats := { packetsReceived := 0, bytesReceived := 0,
                           lastPacketTime := 0 } } :: st.sessions
            usedPorts :=
              (getAvailablePort (getAvailablePort st).2).2.usedPorts } := by
        apply inv_cons_core _ _ h
        · -- st.usedPorts ⊆ final used set
          intro x hx
          rw [hB.2.2.2.1, hA.2.2.2.1]
          simp only [Finset.mem_insert]
          tauto
        · -- portSet of the new session is recorded
          intro x hx
          simp only [Session.portSet, Option.isSome_some, if_true,
            Finset.mem_union, Finset.mem_insert, Finset.mem_singleton] at hx
          rw [hB.2.2.2.1, hA.2.2.2.1]
          simp only [Finset.mem_insert]
          rcases hx with (hx | hx) | (hx | hx) <;> tauto
        · -- SessionPortsOk
          unfold SessionPortsOk
          refine ⟨fun _ => ⟨hA.2.1, hA.2.2.1⟩, fun hcon => by simp at hcon,
            fun _ => ?_, fun hcon => by simp at hcon⟩
          rw [hconf1] at hB
          exact ⟨hB.2.1, hB.2.2.1⟩
        · -- disjoint from every old session
          intro s hs
          rw [Finset.disjoint_left]
          intro x hx hxs
          simp only [Session.portSet, Option.isSome_some, if_true,
            Finset.mem_union, Finset.mem_insert, Finset.mem_singleton] at hx
          have hnv := fresh_pair_not_mem (h.subset s hs) (h.portsOk s hs)
            hA.1 hA.2.2.1 x hxs
          have hsubV : s.portSet ⊆ (getAvailablePort st).2.usedPorts := by
            intro y hy
            rw [hA.2.2.2.1]
            simp only [Finset.mem_insert]
            exact Or.inr (Or.inr (h.subset s hs hy))
          have hokV : SessionPortsOk
              (getAvailablePort st).2.config.baseRtpPort s := by
            rw [hconf1]; exact h.portsOk s hs
          have hna := fresh_pair_not_mem hsubV hokV hB.1 hB.2.2.1 x hxs
          rcases hx with (hx | hx) | (hx | hx)
          · exact hnv.1 hx
          · exact hnv.2 hx
          · exact hna.1 hx
          · exact hna.2 hx
      by_cases hsp : env.spawnOk = false
      · rw [if_pos hsp]
        exact inv_stop _ env.stopEnv id hst3
      · rw [if_neg hsp]
        have hst4 := inv_updateSession _ id
          (fun s => setupSockets env { s with process := some env.procHandle })
          (fun s => ⟨rfl, rfl, rfl, rfl, rfl⟩) hst3
        by_cases hco : env.connectOk = false
        · rw [if_pos hco]
          exact inv_stop _ env.stopEnv id hst4
        · rw [if_neg hco]
          exact hst4
    | none =>
      simp only [startCore, Option.isSome_some, Option.isSome_none,
        Bool.false_eq_true, if_true, if_false]
      have hst3 : TranscoderInv
          { config := st.config
            sessions :=
              { id := id, process := none, isActive := true,
                startTime := env.now,
                outputPath := pathJoin st.config.outputDir id,
                videoPort := (getAvailablePort st).1,
                audioPort := 0,
                videoSocket := none, audioSocket := none,
                videoProducer := some pvP, audioProducer := none,
                stats := { packetsReceived := 0, bytesReceived := 0,
                           lastPacketTime := 0 } } :: st.sessions
            usedPorts := (getAvailablePort st).2.usedPorts } := by
        apply inv_cons_core _ _ h
        · intro x hx
          rw [hA.2.2.2.1]
          simp only [Finset.mem_insert]
          tauto
        · intro x hx
          simp only [Session.portSet, Option.isSome_some, Option.isSome_none,
            Bool.false_eq_true, if_true, if_false, Finset.union_empty,
            Finset.mem_insert, Finset.mem_singleton] at hx
          rw [hA.2.2.2.1]
          simp only [Finset.mem_insert]
          tauto
        · unfold SessionPortsOk
          exact ⟨fun _ => ⟨hA.2.1, hA.2.2.1⟩, fun hcon => by simp at hcon,
            fun hcon => by simp at hcon, fun _ => rfl⟩
        · intro s hs
          rw [Finset.disjoint_left]
          intro x hx hxs
          simp only [Session.portSet, Option.isSome_some, Option.isSome_none,
            Bool.false_eq_true, if_true, if_false, Finset.union_empty,
            Finset.mem_insert, Finset.mem_singleton] at hx
          have hnv := fresh_pair_not_mem (h.subset s hs) (h.portsOk s hs)
            hA.1 hA.2.2.1 x hxs
          rcases hx with hx | hx
          · exact hnv.1 hx
          · exact hnv.2 hx
      by_cases hsp : env.spawnOk = false
      · rw [if_pos hsp]
        exact inv_stop _ env.stopEnv id hst3
      · rw [if_neg hsp]
        have hst4 := inv_updateSession _ id
          (fun s => setupSockets env { s with process := some env.procHandle })
          (fun s => ⟨rfl, rfl, rfl, rfl, rfl⟩) hst3
        by_cases hco : env.connectOk = false
        · rw [if_pos hco]
          exact inv_stop _ env.stopEnv id hst4
        · rw [if_neg hco]
          exact hst4
  | none =>
    cases aopt with
    | some paP =>
      simp only [startCore, Option.isSome_some, Option.isSome_none,
        Bool.false_eq_true, if_true, if_false]
      have hst3 : TranscoderInv
          { config := st.config
            sessions :=
              { id := id, process := none, isActive := true,
                startTime := env.now,
                outputPath := pathJoin st.config.outputDir id,
                videoPort := 0,
                audioPort := (getAvailablePort st).1,
                videoSocket := none, audioSocket := none,
                videoProducer := none, audioProducer := some paP,
                stats := { packetsReceived := 0, bytesReceived := 0,
                           lastPacketTime := 0 } } :: st.sessions
            usedPorts := (getAvailablePort st).2.usedPorts } := by
        apply inv_cons_core _ _ h
        · intro x hx
          rw [hA.2.2.2.1]
          simp only [Finset.mem_insert]
          tauto
        · intro x hx
          simp only [Session.portSet, Option.isSome_some, Option.isSome_none,
            Bool.false_eq_true, if_true, if_false, Finset.empty_union,
            Finset.mem_insert, Finset.mem_singleton] at hx
          rw [hA.2.2.2.1]
          simp only [Finset.mem_insert]
          tauto
        · unfold SessionPortsOk
          exact ⟨fun hcon => by simp at hcon, fun _ => rfl,
            fun _ => ⟨hA.2.1, hA.2.2.1⟩, fun hcon => by simp at hcon⟩
        · intro s hs
          rw [Finset.disjoint_left]
          intro x hx hxs
          simp only [Session.portSet, Option.isSome_some, Option.isSome_none,
            Bool.false_eq_true, if_true, if_false, Finset.empty_union,
            Finset.mem_insert, Finset.mem_singleton] at hx
          have hnv := fresh_pair_not_mem (h.subset s hs) (h.portsOk s hs)
            hA.1 hA.2.2.1 x hxs
          rcases hx with hx | hx
          · exact hnv.1 hx
          · exact hnv.2 hx
      by_cases hsp : env.spawnOk = false
      · rw [if_pos hsp]
        exact inv_stop _ env.stopEnv id hst3
      · rw [if_neg hsp]
        have hst4 := inv_updateSession _ id
          (fun s => setupSockets env { s with process := some env.procHandle })
          (fun s => ⟨rfl, rfl, rfl, rfl, rfl⟩) hst3
        by_cases hco : env.connectOk = false
        · rw [if_pos hco]
          exact inv_stop _ env.stopEnv id hst4
        · rw [if_neg hco]
          exact hst4
    | none =>
      simp only [startCore, Option.isSome_none, Bool.false_eq_true, if_false]
      have hst3 : TranscoderInv
          { config := st.config
            sessions :=
              { id := id, process := none, isActive := true,
                startTime := env.now,
                outputPath := pathJoin st.config.outputDir id,
                videoPort := 0,
                audioPort := 0,
                videoSocket := none, audioSocket := none,
                videoProducer := none, audioProducer := none,
                stats := { packetsReceived := 0, bytesReceived := 0,
                           lastPacketTime := 0 } } :: st.sessions
            usedPorts := st.usedPorts } := by
        apply inv_cons_core _ _ h
        · exact fun x hx => hx
        · intro x hx
          simp only [Session.portSet, Option.isSome_none, Bool.false_eq_true,
            if_false, Finset.empty_union, Finset.not_mem_empty] at hx
        · unfold SessionPortsOk
          exact ⟨fun hcon => by simp at hcon, fun _ => rfl,
            fun hcon => by simp at hcon, fun _ => rfl⟩
        · intro s hs
          rw [Finset.disjoint_left]
          intro x hx
          simp only [Session.portSet, Option.isSome_none, Bool.false_eq_true,
            if_false, Finset.empty_union, Finset.not_mem_empty] at hx
      by_cases hsp : env.spawnOk = false
      · rw [if_pos hsp]
        exact inv_stop _ env.stopEnv id hst3
      · rw [if_neg hsp]
        have hst4 := inv_updateSession _ id
          (fun s => setupSockets env { s with process := some env.procHandle })
          (fun s => ⟨rfl, rfl, rfl, rfl, rfl⟩) hst3
        by_cases hco : env.connectOk = false
        · rw [if_pos hco]
          exact inv_stop _ env.stopEnv id hst4
        · rw [if_neg hco]
          exact hst4

theorem inv_start (st : HLSState) (env : StartEnv) (id : String)
    (producers : List Producer) (h : TranscoderInv st) :
    TranscoderInv (startTranscoding st env id producers).2 := by
  simp only [startTranscoding]
  by_cases hdup : (st.sessions.find? (fun s => s.id == id)).isSome = true
  · rw [if_pos hdup]
    exact inv_stop st env.stopEnv id h
  · rw [if_neg hdup]
    by_cases hnp : ((producers.find? (fun p => p.kind == MediaKind.video)).isNone
        && (producers.find? (fun p => p.kind == MediaKind.audio)).isNone) = true
    · rw [if_pos hnp]
      exact inv_stop st env.stopEnv id h
    · rw [if_neg hnp]
      exact inv_startCore st env id _ _ h

theorem inv_initial (config : HLSConfig) (hb : 2 ≤ config.baseRtpPort) :
    TranscoderInv (initialState config) := by
  constructor
  · exact hb
  · intro s hs
    simp [initialState] at hs
  · intro s hs
    simp [initialState] at hs
  · intro s1 h1 s2 h2
    simp [initialState] at h1

theorem inv_reachable (config : HLSConfig) (st : HLSState)
    (hr : Reachable config st) (hb : 2 ≤ config.baseRtpPort) :
    TranscoderInv st := by
  induction hr with
  | init => exact inv_initial config hb
  | start st' env id producers _ ih => exact inv_start st' env id producers ih
  | stop st' env id _ ih => exact inv_stop st' env id ih

/-! ## Behaviour of `stopTranscoding` -/

theorem stop_not_found (st : HLSState) (env : StopEnv) (id : String)
    (hfind : st.sessions.find? (fun s => s.id == id) = none) :
    stopTranscoding st env id = (st, false) := by
  unfold stopTranscoding
  rw [hfind]

theorem stop_found (st : HLSState) (env : StopEnv) (id : String)
    (sess : Session)
    (hfind : st.sessions.find? (fun s => s.id == id) = some sess) :
    (stopTranscoding st env id).1.sessions.find? (fun s => s.id == id)
        = none ∧
      (stopTranscoding st env id).1.usedPorts
        = releasePorts st.usedPorts sess ∧
      (stopTranscoding st env id).2
        = (sess.process.isSome && !env.exitsWithinGrace) := by
  unfold stopTranscoding
  rw [hfind]
  refine ⟨?_, rfl, rfl⟩
  apply List.find?_eq_none.mpr
  intro x hx
  rw [List.mem_filter] at hx
  simpa using hx.2

/-! ## Claim theorems -/

/-- C1: in the code, `startTranscoding` on an already-tracked id does reject
the call with the duplicate-session error, but the catch-all cleanup then
runs `stopTranscoding(sessionId)` against the PRE-EXISTING session: the
tracked session is removed from the registry and all four of its port slots
are released.  This contradicts the claimed "no side effects". -/
theorem duplicateStart_destroys_existing (st : HLSState) (env : StartEnv)
    (id : String) (producers : List Producer) (sess : Session)
    (hfind : st.sessions.find? (fun s => s.id == id) = some sess) :
    (startTranscoding st env id producers).1
        = Except.error StartError.duplicateSession ∧
      (startTranscoding st env id producers).2.sessions.find?
          (fun s => s.id == id) = none ∧
      (startTranscoding st env id producers).2.usedPorts
        = releasePorts st.usedPorts sess := by
  have hdup : (st.sessions.find? (fun s => s.id == id)).isSome = true := by
    rw [hfind]; rfl
  obtain ⟨h1, h2, _⟩ := stop_found st env.stopEnv id sess hfind
  simp only [startTranscoding]
  rw [if_pos hdup]
  exact ⟨rfl, h1, h2⟩

/-- Witness for C1 at a concrete state: re-starting `"s1"` while `"s1"` is
tracked errors out, unregisters the existing `"s1"` and releases its
ports. -/
theorem duplicateStart_destroys_existing_witness :
    (startTranscoding demoState1 demoEnvOk "s1" bothProducers).1
        = Except.error StartError.duplicateSession ∧
      (startTranscoding demoState1 demoEnvOk "s1" bothProducers).2.sessions.find?
          (fun s => s.id == "s1") = none ∧
      (startTranscoding demoState1 demoEnvOk "s1" bothProducers).2.usedPorts
        = releasePorts demoState1.usedPorts demoSessionS1 :=
  duplicateStart_destroys_existing demoState1 demoEnvOk "s1" bothProducers
    demoSessionS1 (by decide)

/-- C2: the `'exit'` handler sets `session.isActive = false` before testing
`session.isActive` in its restart guard, so the guard is always false: no
restart is ever scheduled, for any exit code or signal, and the session is
left inactive.  This contradicts the documented auto-restart. -/
theorem processExit_never_restarts (s : Session) (code : Option Int)
    (signal : Option String) :
    (onProcessExit s code signal).2 = false ∧
      (onProcessExit s code signal).1.isActive = false := by
  simp [onProcessExit]

/-- C3: in every reachable transcoder state (with a base port of at least
2), the port sets of any two distinct tracked sessions are disjoint, and
an allocation only ever hands out a port that is not currently in the
used-port set, marking the pair used. -/
theorem reachable_port_pairs_disjoint :
    (∀ (config : HLSConfig) (st : HLSState), Reachable config st →
      2 ≤ config.baseRtpPort →
      ∀ s1, s1 ∈ st.sessions → ∀ s2, s2 ∈ st.sessions → s1.id ≠ s2.id →
        Disjoint s1.portSet s2.portSet) ∧
    (∀ st : HLSState, (getAvailablePort st).1 ∉ st.usedPorts ∧
      (getAvailablePort st).1 ∈ (getAvailablePort st).2.usedPorts ∧
      (getAvailablePort st).1 + 1 ∈ (getAvailablePort st).2.usedPorts) := by
  constructor
  · intro config st hr hb s1 h1 s2 h2 hne
    exact (inv_reachable config st hr hb).disj s1 h1 s2 h2 hne
  · intro st
    obtain ⟨h1, _, _, h4, _, _⟩ := getAvailablePort_spec st
    refine ⟨h1, ?_, ?_⟩ <;> rw [h4] <;> simp

/-- Witness for C3: the two sessions of the concrete two-session reachable
state hold disjoint port sets. -/
theorem reachable_port_pairs_disjoint_witness :
    Disjoint demoSessionS1.portSet demoSessionS2.portSet :=
  reachable_port_pairs_disjoint.1 DEFAULT_HLS_CONFIG demoState2
    (Reachable.start _ demoEnvOk "s2" bothProducers
      (Reachable.start _ demoEnvOk "s1" bothProducers Reachable.init))
    (by decide) demoSessionS1 (by decide) demoSessionS2 (by decide)
    (by decide)

/-- C4: with an even configured base, an allocation returns the lowest
unused even port at or above the base and marks the pair used; concretely,
starting `"s1"` (both kinds) on a fresh default transcoder yields pairs
(20000, 20001) and (20002, 20003), and the immediately following `"s2"`
gets ports 20004/20006 (at or above 20004). -/
theorem getAvailablePort_lowest_even :
    (∀ st : HLSState, st.config.baseRtpPort % 2 = 0 →
      (getAvailablePort st).1 % 2 = 0 ∧
        st.config.baseRtpPort ≤ (getAvailablePort st).1 ∧
        (getAvailablePort st).1 ∉ st.usedPorts ∧
        (∀ q, q % 2 = 0 → st.config.baseRtpPort ≤ q → q ∉ st.usedPorts →
          (getAvailablePort st).1 ≤ q) ∧
        (getAvailablePort st).2.usedPorts
          = insert ((getAvailablePort st).1 + 1)
              (insert (getAvailablePort st).1 st.usedPorts)) ∧
    (demoState1.sessions.map (fun s => (s.videoPort, s.audioPort))
        = [(20000, 20002)] ∧
      demoState1.usedPorts = {20000, 20001, 20002, 20003} ∧
      demoState2.sessions.map (fun s => (s.videoPort, s.audioPort))
        = [(20004, 20006), (20000, 20002)]) := by
  constructor
  · intro st hb
    obtain ⟨h1, h2, h3, h4, _, _⟩ := getAvailablePort_spec st
    have hmin := (findFreePort_spec st.usedPorts st.config.baseRtpPort).2.2.2
    refine ⟨by omega, h2, h1, ?_, h4⟩
    intro q hq hq2 hq3
    exact hmin q hq2 (by omega) hq3
  · exact ⟨by decide, by decide, by decide⟩

/-- Witness for C4's universally quantified part, at the fresh default
state. -/
theorem getAvailablePort_lowest_even_witness :
    (getAvailablePort (initialState DEFAULT_HLS_CONFIG)).1 % 2 = 0 ∧
      DEFAULT_HLS_CONFIG.baseRtpPort
        ≤ (getAvailablePort (initialState DEFAULT_HLS_CONFIG)).1 :=
  ⟨((getAvailablePort_lowest_even.1 (initialState DEFAULT_HLS_CONFIG)
      (by decide))).1,
   ((getAvailablePort_lowest_even.1 (initialState DEFAULT_HLS_CONFIG)
      (by decide))).2.1⟩

/-- C5: for every tracked session, `stopTranscoding` removes the session
from the registry and removes all four port slots - data and control port
of each pair - from the used-port set; this holds for every grace-period
outcome, in particular when the process must be force-killed. -/
theorem stopTranscoding_releases_ports (st : HLSState) (env : StopEnv)
    (id : String) (sess : Session)
    (hfind : st.sessions.find? (fun s => s.id == id) = some sess) :
    (stopTranscoding st env id).1.sessions.find? (fun s => s.id == id)
        = none ∧
      sess.videoPort ∉ (stopTranscoding st env id).1.usedPorts ∧
      sess.videoPort + 1 ∉ (stopTranscoding st env id).1.usedPorts ∧
      sess.audioPort ∉ (stopTranscoding st env id).1.usedPorts ∧
      sess.audioPort + 1 ∉ (stopTranscoding st env id).1.usedPorts := by
  obtain ⟨h1, h2, _⟩ := stop_found st env id sess hfind
  refine ⟨h1, ?_, ?_, ?_, ?_⟩ <;> rw [h2] <;> simp [mem_releasePorts]

/-- Witness for C5 at a concrete state, with the grace period expiring so
that the process is force-killed (`.2 = true`): ports and session are
released all the same. -/
theorem stopTranscoding_releases_ports_witness :
    (stopTranscoding demoState1 { exitsWithinGrace := false } "s1").2
        = true ∧
      ((stopTranscoding demoState1 { exitsWithinGrace := false } "s1").1.sessions.find?
          (fun s => s.id == "s1") = none ∧
        demoSessionS1.videoPort
          ∉ (stopTranscoding demoState1 { exitsWithinGrace := false } "s1").1.usedPorts ∧
        demoSessionS1.videoPort + 1
          ∉ (stopTranscoding demoState1 { exitsWithinGrace := false } "s1").1.usedPorts ∧
        demoSessionS1.audioPort
          ∉ (stopTranscoding demoState1 { exitsWithinGrace := false } "s1").1.usedPorts ∧
        demoSessionS1.audioPort + 1
          ∉ (stopTranscoding demoState1 { exitsWithinGrace := false } "s1").1.usedPorts) :=
  ⟨by decide,
   stopTranscoding_releases_ports demoState1 { exitsWithinGrace := false }
     "s1" demoSessionS1 (by decide)⟩

/-- C6 (amended): the original per-kind `'message'` handlers increment
`packetsReceived` by exactly 1, add the datagram length to
`bytesReceived`, stamp the last-packet time and forward the raw bytes
verbatim to the process stdin (when the process is present and stdin is
writable); the replacement handler installed by socket recovery forwards
the raw bytes verbatim under the same condition but does NOT update the
stats. -/
theorem rtpMessage_handler_behaviour (s : Session) (pkt : List Nat)
    (now : Nat) (w : Bool) :
    (onRtpMessage s pkt now w).1.stats.packetsReceived
        = s.stats.packetsReceived + 1 ∧
      (onRtpMessage s pkt now w).1.stats.bytesReceived
        = s.stats.bytesReceived + pkt.length ∧
      (onRtpMessage s pkt now w).1.stats.lastPacketTime = now ∧
      (onRtpMessage s pkt now w).2
        = (if s.process.isSome && w then [pkt] else []) ∧
      (recoveryOnMessage s pkt w).1 = s ∧
      (recoveryOnMessage s pkt w).2
        = (if s.process.isSome && w then [pkt] else []) := by
  unfold onRtpMessage recoveryOnMessage
  by_cases hc : (s.process.isSome && w) = true <;>
    simp [hc]

/-- C6 counterexample: the replacement socket installed by
`attemptSocketRecovery` does forward the received datagram to the process,
yet does not increment `packetsReceived`, contradicting the claim that
every forwarding socket's handler increments the counter by exactly 1. -/
theorem recoverySocket_forwards_without_stats :
    (recoveryOnMessage demoSessionS1 [1, 2, 3] true).2 = [[1, 2, 3]] ∧
      (recoveryOnMessage demoSessionS1 [1, 2, 3] true).1.stats.packetsReceived
        ≠ demoSessionS1.stats.packetsReceived + 1 := by
  decide

theorem waitLoop_spec (pkts : Nat → Nat) (initial timeoutMs : Nat) :
    ∀ fuel k, 1 ≤ fuel → timeoutMs / 100 + 2 ≤ k + fuel →
      waitLoop pkts initial timeoutMs k fuel ≠ FlowResult.rejected ∧
        (∀ d e, waitLoop pkts initial timeoutMs k fuel
            = FlowResult.flowDetected d e → 10 < d ∧ e % 100 = 0) ∧
        (∀ d e, waitLoop pkts initial timeoutMs k fuel
            = FlowResult.timeoutWarn d e →
          timeoutMs < e ∧ d ≤ 10 ∧ e % 100 = 0) := by
  intro fuel
  induction fuel with
  | zero => intro k h1 h2; omega
  | succ f ih =>
    intro k _ h2
    by_cases hd : pkts k - initial > 10
    · have hstep : waitLoop pkts initial timeoutMs k (f + 1)
          = FlowResult.flowDetected (pkts k - initial) (100 * k) := by
        simp [waitLoop, hd]
      rw [hstep]
      refine ⟨by simp, ?_, ?_⟩
      · intro d e he
        injection he with h3 h4
        constructor
        · omega
        · rw [← h4]; omega
      · intro d e he
        cases he
    · by_cases ht : 100 * k > timeoutMs
      · have hstep : waitLoop pkts initial timeoutMs k (f + 1)
            = FlowResult.timeoutWarn (pkts k - initial) (100 * k) := by
          simp [waitLoop, hd, ht]
        rw [hstep]
        refine ⟨by simp, ?_, ?_⟩
        · intro d e he
          cases he
        · intro d e he
          injection he with h3 h4
          refine ⟨by omega, by omega, by rw [← h4]; omega⟩
      · have hstep : waitLoop pkts initial timeoutMs k (f + 1)
            = waitLoop pkts initial timeoutMs (k + 1) f := by
          simp [waitLoop, hd, ht]
        rw [hstep]
        have hk : k ≤ timeoutMs / 100 := Nat.le_div_iff_mul_le (by omega) |>.mpr
          (by omega)
        exact ih (k + 1) (by omega) (by omega)

/-- C7 (amended): `waitForRtpFlow` always resolves and never rejects: it
polls at 100 ms ticks, resolves early exactly when STRICTLY MORE than 10
packets (i.e. at least 11) have arrived since the check began - in
particular an immediate flow of more than 10 packets resolves at the first
tick - and otherwise resolves once the elapsed time exceeds the timeout,
with only a logged warning, so a synchronization timeout never fails the
start operation. -/
theorem waitForRtpFlow_never_rejects (pkts : Nat → Nat) (timeoutMs : Nat) :
    waitForRtpFlow pkts timeoutMs ≠ FlowResult.rejected ∧
      (∀ d e, waitForRtpFlow pkts timeoutMs = FlowResult.flowDetected d e →
        10 < d ∧ e % 100 = 0) ∧
      (∀ d e, waitForRtpFlow pkts timeoutMs = FlowResult.timeoutWarn d e →
        timeoutMs < e ∧ d ≤ 10 ∧ e % 100 = 0) ∧
      (10 < pkts 1 - pkts 0 →
        waitForRtpFlow pkts timeoutMs
          = FlowResult.flowDetected (pkts 1 - pkts 0) 100) := by
  have hmain := waitLoop_spec pkts (pkts 0) timeoutMs (timeoutMs / 100 + 2) 1
    (by omega) (by omega)
  refine ⟨hmain.1, hmain.2.1, hmain.2.2, ?_⟩
  intro hgt
  show waitLoop pkts (pkts 0) timeoutMs 1 (timeoutMs / 100 + 1 + 1)
      = FlowResult.flowDetected (pkts 1 - pkts 0) 100
  simp [waitLoop, hgt]

/-- Witness for C7 at a concrete trace and timeout: the synchronizer
resolves (is not rejected), and a detected flow indeed carries more than
10 packets at a 100 ms-multiple tick. -/
theorem waitForRtpFlow_never_rejects_witness :
    waitForRtpFlow demoTraceTwenty 500 ≠ FlowResult.rejected ∧
      (10 < 20 ∧ (100 : Nat) % 100 = 0) :=
  ⟨(waitForRtpFlow_never_rejects demoTraceTwenty 500).1,
   (waitForRtpFlow_never_rejects demoTraceTwenty 500).2.1 20 100 (by decide)⟩

/-- C7 counterexample: on a trace where exactly 10 packets (the claimed
minimum) have arrived since the check began, the code does NOT resolve
early: it runs the full 3000 ms timeout and resolves with the warning
outcome, because its guard is `packetsReceived > 10`, not `≥ 10`. -/
theorem tenPackets_not_early_resolved :
    waitForRtpFlow demoTraceTen 3000 = FlowResult.timeoutWarn 10 3100 := by
  decide

/-- C8: no transcoder operation on a tracked session - packet handling on
original or replacement sockets, socket replacement, process exit and
restart handling, stderr logging, the stop marking, or a read-only
monitoring call - ever decreases `packetsReceived` or `bytesReceived`. -/
theorem sessionStep_stats_monotone (s s' : Session) (h : SessionStep s s') :
    s.stats.packetsReceived ≤ s'.stats.packetsReceived ∧
      s.stats.bytesReceived ≤ s'.stats.bytesReceived := by
  cases h with
  | rtpMessage pkt now w =>
    unfold onRtpMessage
    by_cases hc : (s.process.isSome && w) = true <;> simp [hc]
  | recoveryMessage pkt w =>
    unfold recoveryOnMessage
    by_cases hc : (s.process.isSome && w) = true <;> simp [hc]
  | socketReplaced kind handle =>
    cases kind <;> simp [replaceSocket]
  | processExit code signal =>
    unfold onProcessExit
    simp
  | restartComplete handle =>
    simp [onRestartComplete]
  | stderrData isErrorLine isProgressLine now =>
    unfold onStderrData
    by_cases h1 : isErrorLine = true <;>
      by_cases h2 : isProgressLine = true <;>
      by_cases h3 : s.stats.lastPacketTime = 0 ∨
        now - s.stats.lastPacketTime > 5000 <;>
      simp [h1, h2, h3]
  | stopMark => exact ⟨le_refl _, le_refl _⟩
  | unchanged => exact ⟨le_refl _, le_refl _⟩

/-- Witness for C8: a concrete packet-handling step does not decrease the
counters. -/
theorem sessionStep_stats_monotone_witness :
    demoSessionS1.stats.packetsReceived
        ≤ (onRtpMessage demoSessionS1 [1, 2, 3] 5 true).1.stats.packetsReceived ∧
      demoSessionS1.stats.bytesReceived
        ≤ (onRtpMessage demoSessionS1 [1, 2, 3] 5 true).1.stats.bytesReceived :=
  sessionStep_stats_monotone _ _
    (SessionStep.rtpMessage demoSessionS1 [1, 2, 3] 5 true)

/-- C10: when the producer list contains neither a video nor an audio
producer, `startTranscoding` throws; no ports are ever added by the failed
call, and no session under that id is registered when it returns.  When
the id was not already tracked (the only situation in which the
no-producer check is even reached), the state is completely unchanged and
the error is the no-valid-producers error. -/
theorem noProducers_start_rejected (st : HLSState) (env : StartEnv)
    (id : String) (producers : List Producer)
    (hv : producers.find? (fun p => p.kind == MediaKind.video) = none)
    (ha : producers.find? (fun p => p.kind == MediaKind.audio) = none) :
    (∃ e, (startTranscoding st env id producers).1 = Except.error e) ∧
      (startTranscoding st env id producers).2.usedPorts ⊆ st.usedPorts ∧
      (startTranscoding st env id producers).2.sessions.find?
          (fun s => s.id == id) = none ∧
      (st.sessions.find? (fun s => s.id == id) = none →
        (startTranscoding st env id producers).2 = st ∧
          (startTranscoding st env id producers).1
            = Except.error StartError.noValidProducers) := by
  cases hfind : st.sessions.find? (fun s => s.id == id) with
  | some sess =>
    have hdup : (st.sessions.find? (fun s => s.id == id)).isSome = true := by
      rw [hfind]; rfl
    obtain ⟨h1, h2, _⟩ := stop_found st env.stopEnv id sess hfind
    simp only [startTranscoding]
    rw [if_pos hdup]
    refine ⟨⟨StartError.duplicateSession, rfl⟩, ?_, h1, ?_⟩
    · intro x hx
      rw [h2] at hx
      exact (mem_releasePorts.mp hx).1
    · intro hcontra
      cases hcontra
  | none =>
    have hdup : ¬((st.sessions.find? (fun s => s.id == id)).isSome = true) := by
      rw [hfind]; simp
    have hnp : ((producers.find? (fun p => p.kind == MediaKind.video)).isNone
        && (producers.find? (fun p => p.kind == MediaKind.audio)).isNone)
          = true := by
      rw [hv, ha]; rfl
    have hstop : (stopTranscoding st env.stopEnv id).1 = st := by
      rw [stop_not_found st env.stopEnv id hfind]
    simp only [startTranscoding]
    rw [if_neg hdup, if_pos hnp]
    refine ⟨⟨StartError.noValidProducers, rfl⟩, ?_, ?_, ?_⟩
    · show (stopTranscoding st env.stopEnv id).1.usedPorts ⊆ st.usedPorts
      rw [hstop]
    · show (stopTranscoding st env.stopEnv id).1.sessions.find?
          (fun s => s.id == id) = none
      rw [hstop]
      exact hfind
    · intro _
      exact ⟨hstop, rfl⟩

/-- Witness for C10: starting with an empty producer list on a fresh
transcoder throws the no-valid-producers error and leaves the state
exactly as it was. -/
theorem noProducers_start_rejected_witness :
    (startTranscoding (initialState DEFAULT_HLS_CONFIG) demoEnvOk "s1" []).2
        = initialState DEFAULT_HLS_CONFIG ∧
      (startTranscoding (initialState DEFAULT_HLS_CONFIG) demoEnvOk "s1" []).1
        = Except.error StartError.noValidProducers :=
  (noProducers_start_rejected (initialState DEFAULT_HLS_CONFIG) demoEnvOk
    "s1" [] (by decide) (by decide)).2.2.2 (by decide)

theorem findFreePort_empty (base : Nat) :
    findFreePort (∅ : Finset Nat) base = base := by
  have h := findFreePort_spec (∅ : Finset Nat) base
  have hmin := h.2.2.2 base (le_refl _) (by omega) (Finset.not_mem_empty _)
  omega

theorem findFreePort_pair (base : Nat) :
    findFreePort (insert (base + 1) (insert base (∅ : Finset Nat))) base
      = base + 2 := by
  have h := findFreePort_spec
    (insert (base + 1) (insert base (∅ : Finset Nat))) base
  have hne : findFreePort (insert (base + 1) (insert base (∅ : Finset Nat)))
      base ≠ base + 1 ∧
      findFreePort (insert (base + 1) (insert base (∅ : Finset Nat))) base
        ≠ base := by
    have := h.1
    simp [Finset.mem_insert] at this
    exact this
  have hmin := h.2.2.2 (base + 2) (by omega) (by omega) (by simp)
  have hge := h.2.1
  have hpar := h.2.2.1
  omega

theorem startTranscoding_fresh (cfg : HLSConfig) (env : StartEnv) (id : String)
    (hb : 0 < cfg.baseRtpPort) (hs : env.spawnOk = true)
    (hc : env.connectOk = true) :
    startTranscoding (initialState cfg) env id bothProducers
      = (Except.ok (pathJoin (pathJoin cfg.outputDir id) "playlist.m3u8"),
         { config := cfg
           sessions := [{
             id := id
             process := some env.procHandle
             isActive := true
             startTime := env.now
             outputPath := pathJoin cfg.outputDir id
             videoPort := cfg.baseRtpPort
             audioPort := cfg.baseRtpPort + 2
             videoSocket := some env.videoSocketHandle
             audioSocket := some env.audioSocketHandle
             videoProducer := some { kind := MediaKind.video }
             audioProducer := some { kind := MediaKind.audio }
             stats := { packetsReceived := 0, bytesReceived := 0,
                        lastPacketTime := 0 } }]
           usedPorts := insert (cfg.baseRtpPort + 3) (insert (cfg.baseRtpPort + 2)
             (insert (cfg.baseRtpPort + 1)
               (insert cfg.baseRtpPort (∅ : Finset Nat)))) }) := by
  have hfv : bothProducers.find? (fun p => p.kind == MediaKind.video)
      = some { kind := MediaKind.video } := rfl
  have hfa : bothProducers.find? (fun p => p.kind == MediaKind.audio)
      = some { kind := MediaKind.audio } := rfl
  have hb0 : (cfg.baseRtpPort == 0) = false := by
    simp
    omega
  have hb2 : (cfg.baseRtpPort + 2 == 0) = false := by
    simp
  simp only [startTranscoding, initialState, List.find?_nil, Option.isSome_none,
    Bool.false_eq_true, if_false, hfv, hfa, Option.isNone_some,
    Bool.and_self, Bool.and_false]
  simp only [startCore, Option.isSome_some, if_true, getAvailablePort]
  rw [findFreePort_empty]
  rw [findFreePort_pair]
  simp only [hs, Bool.true_eq_false, if_false, hc]
  simp only [updateSession, List.map_cons, List.map_nil, beq_self_eq_true,
    if_true, setupSockets, Option.isSome_some, Bool.true_and, Bool.and_true,
    hb0, hb2, Bool.not_false]

theorem tierConfig_720 :
    tierConfig DEFAULT_HLS_CONFIG
        { name := "720p", resolution := "1280x720", bitrate := "2500k" }
      = { outputDir := "./hls-output", segmentDuration := 4,
          playlistLength := 10, resolution := "1280x720",
          videoBitrate := "2500k", audioBitrate := "128k",
          baseRtpPort := 20000 } := by decide

theorem tierConfig_480 :
    tierConfig DEFAULT_HLS_CONFIG
        { name := "480p", resolution := "854x480", bitrate := "1200k" }
      = { outputDir := "./hls-output", segmentDuration := 4,
          playlistLength := 10, resolution := "854x480",
          videoBitrate := "1200k", audioBitrate := "128k",
          baseRtpPort := 20100 } := by decide

theorem tierConfig_360 :
    tierConfig DEFAULT_HLS_CONFIG
        { name := "360p", resolution := "640x360", bitrate := "800k" }
      = { outputDir := "./hls-output", segmentDuration := 4,
          playlistLength := 10, resolution := "640x360",
          videoBitrate := "800k", audioBitrate := "128k",
          baseRtpPort := 20200 } := by decide

/-- C9: with both producers and successful external operations,
`startAdaptiveTranscoding` does create one independent active session per
built-in tier, named `id_720p`, `id_480p`, `id_360p`, each on a transcoder
configured with the tier's resolution and bitrate and a distinct base-port
offset (20000/20100/20200); it returns the three tier manifest paths, and
the master playlist contains exactly three stream-info entries whose
bandwidth is the tier bitrate in kbps times 1000 and whose resolution is
the tier resolution.  BUT the entries do not point at the tier manifests:
each entry is followed by the relative URL `name/playlist.m3u8`, which
resolves against the master playlist's own directory
`outputDir/sessionId/` to `outputDir/sessionId/name/playlist.m3u8`,
whereas the tier manifests are created at
`outputDir/sessionId_name/playlist.m3u8`.  The last conjunct proves, at
the concrete failing input `"live"`, that no entry's resolved target
equals any of the three tier manifest paths, refuting the claim's "each
pointing at that tier's manifest" on the code. -/
theorem startAdaptive_three_tiers (sessionId : String) (env : StartEnv)
    (hs : env.spawnOk = true) (hc : env.connectOk = true) :
    (startAdaptiveTranscoding DEFAULT_HLS_CONFIG env sessionId
          bothProducers).map (fun r => r.1.map Prod.fst)
      = Except.ok
          [pathJoin (pathJoin "./hls-output" (sessionId ++ "_" ++ "720p"))
             "playlist.m3u8",
           pathJoin (pathJoin "./hls-output" (sessionId ++ "_" ++ "480p"))
             "playlist.m3u8",
           pathJoin (pathJoin "./hls-output" (sessionId ++ "_" ++ "360p"))
             "playlist.m3u8"] ∧
    (startAdaptiveTranscoding DEFAULT_HLS_CONFIG env sessionId
          bothProducers).map
        (fun r => r.1.map (fun p => p.2.sessions.map
          (fun s => (s.id, s.isActive))))
      = Except.ok
          [[(sessionId ++ "_" ++ "720p", true)],
           [(sessionId ++ "_" ++ "480p", true)],
           [(sessionId ++ "_" ++ "360p", true)]] ∧
    (startAdaptiveTranscoding DEFAULT_HLS_CONFIG env sessionId
          bothProducers).map
        (fun r => r.1.map (fun p => (p.2.config.resolution,
          p.2.config.videoBitrate, p.2.config.baseRtpPort)))
      = Except.ok
          [("1280x720", "2500k", 20000), ("854x480", "1200k", 20100),
           ("640x360", "800k", 20200)] ∧
    (startAdaptiveTranscoding DEFAULT_HLS_CONFIG env sessionId
          bothProducers).map (fun r => r.2.2.1)
      = Except.ok
          [{ bandwidth := 2500000, resolution := "1280x720",
             name := "720p", uri := "720p/playlist.m3u8" },
           { bandwidth := 1200000, resolution := "854x480",
             name := "480p", uri := "480p/playlist.m3u8" },
           { bandwidth := 800000, resolution := "640x360",
             name := "360p", uri := "360p/playlist.m3u8" }] ∧
    qualities.map (fun q => parseBitrateKbps q.bitrate * 1000)
      = [2500000, 1200000, 800000] ∧
    (startAdaptiveTranscoding DEFAULT_HLS_CONFIG env sessionId
          bothProducers).map (fun r => r.2.1)
      = Except.ok (pathJoin (pathJoin "./hls-output" sessionId)
          "master.m3u8") ∧
    ((createMasterPlaylist DEFAULT_HLS_CONFIG "live" qualities).2.1.map
        (fun e => pathJoin (pathJoin DEFAULT_HLS_CONFIG.outputDir "live")
          e.uri)).all
      (fun u =>
        [pathJoin (pathJoin "./hls-output" ("live" ++ "_" ++ "720p"))
           "playlist.m3u8",
         pathJoin (pathJoin "./hls-output" ("live" ++ "_" ++ "480p"))
           "playlist.m3u8",
         pathJoin (pathJoin "./hls-output" ("live" ++ "_" ++ "360p"))
           "playlist.m3u8"].all (fun p => !(u == p))) = true := by
  have h720 := startTranscoding_fresh
    { outputDir := "./hls-output", segmentDuration := 4,
      playlistLength := 10, resolution := "1280x720",
      videoBitrate := "2500k", audioBitrate := "128k",
      baseRtpPort := 20000 } env (sessionId ++ "_" ++ "720p")
    (by decide) hs hc
  have h480 := startTranscoding_fresh
    { outputDir := "./hls-output", segmentDuration := 4,
      playlistLength := 10, resolution := "854x480",
      videoBitrate := "1200k", audioBitrate := "128k",
      baseRtpPort := 20100 } env (sessionId ++ "_" ++ "480p")
    (by decide) hs hc
  have h360 := startTranscoding_fresh
    { outputDir := "./hls-output", segmentDuration := 4,
      playlistLength := 10, resolution := "640x360",
      videoBitrate := "800k", audioBitrate := "128k",
      baseRtpPort := 20200 } env (sessionId ++ "_" ++ "360p")
    (by decide) hs hc
  simp only [startAdaptiveTranscoding, runTiers, qualities, tierConfig_720,
    tierConfig_480, tierConfig_360, h720, h480, h360]
  refine ⟨rfl, rfl, rfl, rfl, rfl, rfl, ?_⟩
  decide

/-- Witness for C9 at a concrete session id and environment. -/
theorem startAdaptive_three_tiers_witness :
    (startAdaptiveTranscoding DEFAULT_HLS_CONFIG demoEnvOk "live"
          bothProducers).map (fun r => r.1.map Prod.fst)
      = Except.ok
          [pathJoin (pathJoin "./hls-output" ("live" ++ "_" ++ "720p"))
             "playlist.m3u8",
           pathJoin (pathJoin "./hls-output" ("live" ++ "_" ++ "480p"))
             "playlist.m3u8",
           pathJoin (pathJoin "./hls-output" ("live" ++ "_" ++ "360p"))
             "playlist.m3u8"] :=
  (startAdaptive_three_tiers "live" demoEnvOk (by decide) (by decide)).1
